import Mathlib

/-!
Verification of the performance-service layer of the `ducktape` repository
(`src/ducttape/services/performance.py`).

The Python code is shallowly embedded:

* Python strings are `String`, processed as `List Char`;
* Python `str.split(sep)` with a one-character separator is `pySplitChar`,
  `str.split()` (whitespace split) is `pySplitWs`;
* Python `int(s)` / `float(s)` are `pyInt?` / `pyFloat?`, returning `none`
  where Python raises `ValueError` (the special values `inf`/`nan` and
  underscore digit separators are not modelled; no input in this
  development uses them);
* Python floats are modelled as `Rat` (every literal appearing in the
  benchmark output lines treated here is an exact decimal);
* code that can raise an uncaught exception is embedded in `Option`
  (a raising parse helper) or `Except Unit` (a raising worker body);
* the per-node worker threads write disjoint, index-aligned slots, so the
  run lifecycle is embedded as explicit state passing: worker effects are
  computed per node and applied at the `wait` join point.
-/

deriving instance DecidableEq for Except

/-- Tests whether `c` is an ASCII decimal digit, as used by Python number parsing. -/
def isDigitC (c : Char) : Bool := 48 ≤ c.toNat && c.toNat ≤ 57

/-- Numeric value of an ASCII digit. -/
def digVal (c : Char) : Nat := c.toNat - 48

/-- Decimal value of a digit string (most significant first). -/
def digitsToNat (l : List Char) : Nat := l.foldl (fun a c => a * 10 + digVal c) 0

/-- Strip leading and trailing whitespace, as Python `int`/`float` do. -/
def trimChars (l : List Char) : List Char :=
  ((l.dropWhile Char.isWhitespace).reverse.dropWhile Char.isWhitespace).reverse

/-- Split off an optional leading sign; returns (isNegative, rest). -/
def splitSign : List Char → Bool × List Char
  | '-' :: r => (true, r)
  | '+' :: r => (false, r)
  | r => (false, r)

/-- Python `int(s)`: optional surrounding whitespace, optional sign, then a
nonempty run of decimal digits; anything else raises (`none`). -/
def pyInt? (s : String) : Option Int :=
  let (neg, cs) := splitSign (trimChars s.toList)
  if cs = [] then none
  else if cs.all isDigitC then
    some (if neg then -(digitsToNat cs : Int) else (digitsToNat cs : Int))
  else none

/-- Rational multiplication, written via `Rat.divInt` (value-equal to `·*·`,
see `ratMul_eq`; spelled this way so that concrete runs reduce in the kernel). -/
def ratMul (a b : Rat) : Rat := Rat.divInt (a.num * b.num) ((a.den : Int) * (b.den : Int))

/-- Rational division via `Rat.divInt` (value-equal to `·/·`, see `ratDiv_eq`). -/
def ratDiv (a b : Rat) : Rat := Rat.divInt (a.num * (b.den : Int)) ((a.den : Int) * b.num)

/-- Rational negation via `Rat.divInt` (value-equal to `-·`, see `ratNeg_eq`). -/
def ratNeg (a : Rat) : Rat := Rat.divInt (-a.num) (a.den : Int)

/-- Scale a rational by `10 ^ e` for an integer exponent `e`. -/
def applyExpTen (q : Rat) (e : Int) : Rat :=
  if 0 ≤ e then ratMul q (Rat.divInt ((10 : Int) ^ e.toNat) 1)
  else ratDiv q (Rat.divInt ((10 : Int) ^ (-e).toNat) 1)

/-- Exponent tail of a Python float literal after `e`/`E`:
optional sign then a nonempty digit run. -/
def parseExpSigned (r : List Char) : Option (Int × List Char) :=
  let (neg, r') := splitSign r
  let ds := r'.takeWhile isDigitC
  if ds = [] then none
  else some (if neg then -(digitsToNat ds : Int) else (digitsToNat ds : Int),
             r'.dropWhile isDigitC)

/-- Optional exponent part of a Python float literal. -/
def parseExp : List Char → Option (Int × List Char)
  | 'e' :: r => parseExpSigned r
  | 'E' :: r => parseExpSigned r
  | r => some (0, r)

/-- Python `float(s)` on decimal literals: optional surrounding whitespace,
optional sign, digits with an optional single `.`, optional exponent; at
least one digit must be present and nothing may follow.  Returns `none`
where Python raises `ValueError`. -/
def pyFloat? (s : String) : Option Rat :=
  let (neg, cs) := splitSign (trimChars s.toList)
  let ip := cs.takeWhile isDigitC
  let rest1 := cs.dropWhile isDigitC
  let (fp, rest2) :=
    match rest1 with
    | '.' :: r => (r.takeWhile isDigitC, r.dropWhile isDigitC)
    | r => (([] : List Char), r)
  match parseExp rest2 with
  | none => none
  | some (e, rest3) =>
    if rest3 ≠ [] then none
    else if ip = [] && fp = [] then none
    else
      let mant : Rat :=
        Rat.divInt (digitsToNat (ip ++ fp) : Int) ((10 : Int) ^ fp.length)
      some (applyExpTen (if neg then ratNeg mant else mant) e)

/-- Split a character list at every occurrence of `c`, keeping empty pieces:
Python `str.split(sep)` for a one-character `sep`. -/
def splitOnChar (c : Char) : List Char → List (List Char)
  | [] => [[]]
  | x :: xs =>
    match splitOnChar c xs with
    | [] => [[]]
    | g :: gs => if x = c then [] :: g :: gs else (x :: g) :: gs

/-- Python `s.split(sep)` for a one-character separator. -/
def pySplitChar (c : Char) (s : String) : List String :=
  (splitOnChar c s.toList).map String.mk

/-- Whitespace tokenizer: `acc` holds the current token, reversed. -/
def wsTokens : List Char → List Char → List (List Char)
  | [], acc => if acc = [] then [] else [acc.reverse]
  | x :: xs, acc =>
    if x.isWhitespace then
      if acc = [] then wsTokens xs [] else acc.reverse :: wsTokens xs []
    else wsTokens xs (x :: acc)

/-- Python `s.split()` (no argument): split on whitespace runs, dropping
empty tokens. -/
def pySplitWs (s : String) : List String :=
  (wsTokens s.toList []).map String.mk

/-- Python `s.startswith(p)`. -/
def listPre : List Char → List Char → Bool
  | [], _ => true
  | _ :: _, [] => false
  | a :: as, b :: bs => a == b && listPre as bs

/-- Python `s.startswith(p)` on strings. -/
def pyStartsWith (s p : String) : Bool := listPre p.toList s.toList

/-- Python `s[:-1]`: drop the final character (empty string stays empty). -/
def pyDropLast (s : String) : String := String.mk s.toList.dropLast



/-!
## The metrics record and the summary-line parsers

`performance.py` extracts the same nine fields in three textually identical
places: `parse_stats` inside `ProducerPerformanceService._worker`
(lines 74-86), the inline dict in `RestProducerPerformanceService._worker`
(lines 132-143), and `parse_performance_output` (lines 366-378).
`parseSummaryFields` embeds that shared field extraction once; `none`
stands for any raised `IndexError`/`ValueError`.
-/

/-- The nine-field metrics record built by the producer-style parsers. -/
structure PerfStats where
  records : Int
  records_per_sec : Rat
  mbps : Rat
  latency_avg_ms : Rat
  latency_max_ms : Rat
  latency_50th_ms : Rat
  latency_95th_ms : Rat
  latency_99th_ms : Rat
  latency_999th_ms : Rat
  deriving DecidableEq, Repr

/-- The record built by `parse_performance_output`: the nine parsed fields plus the
three derived compatibility fields added on lines 380-382. -/
structure PerfSummary where
  records : Int
  records_per_sec : Rat
  mbps : Rat
  latency_avg_ms : Rat
  latency_max_ms : Rat
  latency_50th_ms : Rat
  latency_95th_ms : Rat
  latency_99th_ms : Rat
  latency_999th_ms : Rat
  total_mb : Rat
  rate_mbps : Rat
  rate_mps : Rat
  deriving DecidableEq, Repr

/-- Python `s.split()[0]`: first whitespace token (`none` = `IndexError`). -/
def firstTok (s : String) : Option String := (pySplitWs s)[0]?

/-- Python `int(parts[i].split()[0])`. -/
def intField (parts : List String) (i : Nat) : Option Int := do
  let p ← parts[i]?
  let t ← firstTok p
  pyInt? t

/-- Python `float(parts[i].split()[0])`. -/
def floatField (parts : List String) (i : Nat) : Option Rat := do
  let p ← parts[i]?
  let t ← firstTok p
  pyFloat? t

/-- Python `float(parts[i].split('(')[1].split()[0])`. -/
def parenFloatField (parts : List String) (i : Nat) : Option Rat := do
  let p ← parts[i]?
  let g ← (pySplitChar '(' p)[1]?
  let t ← firstTok g
  pyFloat? t

/-- The shared nine-field extraction from a comma-separated summary line,
in the evaluation order of the Python dict literal. -/
def parseSummaryFields (line : String) : Option PerfStats :=
  let parts := pySplitChar ',' line
  do
    let records ← intField parts 0
    let records_per_sec ← floatField parts 1
    let mbps ← parenFloatField parts 1
    let latency_avg_ms ← floatField parts 2
    let latency_max_ms ← floatField parts 3
    let latency_50th_ms ← floatField parts 4
    let latency_95th_ms ← floatField parts 5
    let latency_99th_ms ← floatField parts 6
    let latency_999th_ms ← floatField parts 7
    pure { records, records_per_sec, mbps, latency_avg_ms, latency_max_ms,
           latency_50th_ms, latency_95th_ms, latency_99th_ms, latency_999th_ms }

/-- Embeds `parse_stats` from `ProducerPerformanceService._worker` (lines 74-86);
the raised exception of the Python version is the `none` value here. -/
def parse_stats (line : String) : Option PerfStats := parseSummaryFields line

/-- Embeds `parse_performance_output` (lines 366-384): the shared extraction plus
the derived fields `total_mb = mbps * (records / records_per_sec)`,
`rate_mbps = mbps`, `rate_mps = records_per_sec`.  A zero
`records_per_sec` would raise `ZeroDivisionError` in Python, hence `none`. -/
def parse_performance_output (summary : String) : Option PerfSummary := do
  let r ← parseSummaryFields summary
  if r.records_per_sec = 0 then none
  else
    pure { records := r.records, records_per_sec := r.records_per_sec,
           mbps := r.mbps, latency_avg_ms := r.latency_avg_ms,
           latency_max_ms := r.latency_max_ms,
           latency_50th_ms := r.latency_50th_ms,
           latency_95th_ms := r.latency_95th_ms,
           latency_99th_ms := r.latency_99th_ms,
           latency_999th_ms := r.latency_999th_ms,
           total_mb := ratMul r.mbps (ratDiv (Rat.divInt r.records 1) r.records_per_sec),
           rate_mbps := r.mbps, rate_mps := r.records_per_sec }



/-!
## The producer-style worker loop (`ProducerPerformanceService._worker`)

Lines 87-100: iterate over the remote output lines; with
`intermediate_stats` enabled, try to append `parse_stats(line)` to this
node's stats slot, swallowing any parse failure (`except: pass`); always
retain the line as the running last-line candidate.  After the stream
ends, try to store `parse_stats(last)` into the result slot, catching any
failure (`except:` log only, the slot keeps its initial `None`).
-/

/-- The loop state of the producer worker: this node's intermediate-stats
slot and the running `last` variable. -/
structure ProducerLoopState where
  stats : List PerfStats
  last : Option String
  deriving DecidableEq, Repr

/-- One iteration of the producer worker's line loop (lines 88-96). -/
def producerStep (intermediate_stats : Bool) (st : ProducerLoopState)
    (line : String) : ProducerLoopState :=
  { stats :=
      if intermediate_stats then
        match parse_stats line with
        | some r => st.stats ++ [r]
        | none => st.stats
      else st.stats,
    last := some line }

/-- The whole line loop, started from `stats = []`, `last = None`. -/
def producerLoop (intermediate_stats : Bool) (lines : List String) :
    ProducerLoopState :=
  lines.foldl (producerStep intermediate_stats) ⟨[], none⟩

/-- The `last` variable after a bare `for line in ...: last = line` loop
(the REST producer / consumer / registry workers, lines 127-130 etc.). -/
def lastLine (lines : List String) : Option String :=
  lines.foldl (fun _ l => some l) none

/-- The value the producer worker leaves in its result slot: `parse_stats`
of the last line when that succeeds, otherwise the slot's initial `None`
(parse failures and the `last is None` case are both caught, lines 97-100). -/
def producerFinal (intermediate_stats : Bool) (lines : List String) :
    Option PerfStats :=
  ((producerLoop intermediate_stats lines).last).bind parse_stats

/-- The producer worker's final `try/except` block embedded in `Except`:
it never propagates — every outcome is `Except.ok` (lines 97-100). -/
def producerWorkerResultE (intermediate_stats : Bool) (lines : List String) :
    Except Unit (Option PerfStats) :=
  match ((producerLoop intermediate_stats lines).last).bind parse_stats with
  | some r => .ok (some r)
  | none => .ok none

/-- Embeds `RestProducerPerformanceService._worker`, lines 127-143: retain the
last line, then parse it inline with NO try/except: `last.split(',')` on
`None` raises, and any field failure raises — both propagate out of the
worker (`Except.error`). -/
def restProducerWorkerResult (lines : List String) : Except Unit PerfStats :=
  match lastLine lines with
  | none => .error ()
  | some l =>
    match parseSummaryFields l with
    | some r => .ok r
    | none => .error ()

/-- Embeds `RestProducerPerformanceService.__init__` line 115: the throughput
value placed in `self.args` (and hence in the command). -/
def restProducerThroughputArg (throughput batch_size : Int) : Int :=
  if throughput > 0 then throughput else -batch_size

/-- Embeds `RestConsumerPerformanceService.__init__` line 188: the throughput
value placed in `self.args`. -/
def restConsumerThroughputArg (throughput : Int) : Int :=
  if throughput > 0 then throughput else -100

/-!
## The consumer-style (non-REST) command (`ConsumerPerformanceService`)

Lines 147-164: `self.args` stores topic, num_records, throughput and
threads, but the command template of lines 161-162 interpolates only
`topic`, `num_records` and `zk_connect`.
-/

/-- The `self.args` dict of `ConsumerPerformanceService` (lines 150-155). -/
structure ConsumerArgs where
  topic : String
  num_records : Int
  throughput : Int
  threads : Int
  deriving DecidableEq, Repr

/-- Append `settings` entries as ` key=value`, in mapping iteration order
(lines 163-164). -/
def appendSettings (cmd : String) (settings : List (String × String)) : String :=
  settings.foldl (fun c kv => c ++ " " ++ kv.1 ++ "=" ++ kv.2) cmd

/-- The remote command built by `ConsumerPerformanceService._worker`
(lines 158-164). -/
def consumerPerfCmd (a : ConsumerArgs) (zk_connect : String)
    (settings : List (String × String)) : String :=
  appendSettings
    ("/opt/kafka/bin/kafka-consumer-perf-test.sh --topic " ++ a.topic ++
     " --messages " ++ toString a.num_records ++ " --zookeeper " ++ zk_connect)
    settings

/-!
## End-to-end-latency extraction (`EndToEndLatencyService._worker`)

Lines 354-363: scan every line; on an `"Avg latency:"` line store
`float(line.split()[2])`; on a `"Percentiles"` line store
`float(line.split()[3][:-1])`, `float(line.split()[6][:-1])` and
`float(line.split()[9])`.  Any failed token access or `float()` raises
out of the worker, embedded as `Except.error`.
-/

/-- The `results` dict of the end-to-end-latency worker; a key that was
never assigned is `none`. -/
structure E2EResults where
  latency_avg_ms : Option Rat
  latency_50th_ms : Option Rat
  latency_99th_ms : Option Rat
  latency_999th_ms : Option Rat
  deriving DecidableEq, Repr

/-- Lift an indexing / `float()` result into the raising worker body. -/
def req {α : Type} (o : Option α) : Except Unit α :=
  match o with
  | some a => .ok a
  | none => .error ()

/-- One iteration of the end-to-end-latency line loop (lines 356-362). -/
def e2eStep (st : E2EResults) (line : String) : Except Unit E2EResults := do
  let toks := pySplitWs line
  let st ←
    if pyStartsWith line "Avg latency:" then do
      let t ← req toks[2]?
      let v ← req (pyFloat? t)
      pure { st with latency_avg_ms := some v }
    else pure st
  if pyStartsWith line "Percentiles" then do
    let t50 ← req toks[3]?
    let v50 ← req (pyFloat? (pyDropLast t50))
    let t99 ← req toks[6]?
    let v99 ← req (pyFloat? (pyDropLast t99))
    let t999 ← req toks[9]?
    let v999 ← req (pyFloat? t999)
    pure { st with latency_50th_ms := some v50, latency_99th_ms := some v99,
                   latency_999th_ms := some v999 }
  else pure st

/-- The whole end-to-end-latency scan, from the empty `results` dict. -/
def e2eRun (lines : List String) : Except Unit E2EResults :=
  lines.foldlM e2eStep ⟨none, none, none, none⟩


/-!
## The run lifecycle (`PerformanceService`, lines 20-49)

`start()` allocates `results = [None] * N`, `stats = [[] ...]` and spawns
one daemon worker per node with `idx` running over `1..N`; each worker
writes only `self.results[idx-1]` (and `self.stats[idx-1]`).  `wait()`
joins every worker and then clears `worker_threads` to `None`; a second
`wait()` would iterate `None` and raise `TypeError`.  `stop()` asserts
`worker_threads is None` (AssertionError otherwise) and then calls
`node.free()` for each node in node-list order.  Nodes are modelled by
their 1-based index.  The workers run concurrently but each owns its
index-aligned slot exclusively, so their effects are gathered per worker
and applied at the join point.
-/

/-- The uncaught Python exceptions the lifecycle can raise. -/
inductive PyErr where
  | assertionError
  | typeError
  deriving DecidableEq, Repr

/-- Everything a worker body does to shared state: the result-slot writes
it performs and the nodes it releases. -/
structure WorkerEffect where
  writes : List (Nat × PerfStats)
  freed : List Nat
  deriving DecidableEq, Repr

/-- The effect of `ProducerPerformanceService._worker(idx, node)` on shared
state: at most one write, to `results[idx-1]`; the body contains no
`node.free()` call. -/
def producerWorkerEffect (intermediate_stats : Bool) (idx : Nat)
    (lines : List String) : WorkerEffect :=
  { writes :=
      match producerFinal intermediate_stats lines with
      | some r => [(idx - 1, r)]
      | none => [],
    freed := [] }

/-- Apply a worker's slot writes to the `results` list. -/
def applyEffect (res : List (Option PerfStats)) (eff : WorkerEffect) :
    List (Option PerfStats) :=
  eff.writes.foldl (fun r e => r.set e.1 (some e.2)) res

/-- The run's shared state: the node count, the worker-handle list
(`None` after `wait`), and the result slots. -/
structure RunState where
  numNodes : Nat
  worker_threads : Option (List Nat)
  results : List (Option PerfStats)
  deriving DecidableEq, Repr

/-- Embeds `PerformanceService.start` (lines 21-35): fresh `results` slots, one
spawned worker per node with indices `1..N`. -/
def startRun (N : Nat) : RunState :=
  { numNodes := N,
    worker_threads := some (List.range' 1 N),
    results := List.replicate N none }

/-- Embeds `PerformanceService.wait` (lines 37-42): join every spawned worker —
at which point all their slot writes are visible — then clear the handle
list.  Iterating a cleared (`None`) handle list raises `TypeError`.
`outputs idx` is the remote output stream of node `idx`'s benchmark
process. -/
def runWait (intermediate_stats : Bool) (outputs : Nat → List String)
    (s : RunState) : Except PyErr RunState :=
  match s.worker_threads with
  | none => .error .typeError
  | some ws =>
    .ok { s with
          worker_threads := none,
          results := ws.foldl
            (fun res idx =>
              applyEffect res (producerWorkerEffect intermediate_stats idx (outputs idx)))
            s.results }

/-- Embeds `PerformanceService.stop` (lines 44-49): assert that `wait` has already
cleared the handle list, then `free()` each node in node-list order.  The
returned list is the sequence of freed nodes. -/
def runStop (s : RunState) : Except PyErr (List Nat) :=
  match s.worker_threads with
  | some _ => .error .assertionError
  | none => .ok (List.range' 1 s.numNodes)


/-!
## Helper lemmas
-/

theorem ratNeg_eq (a : Rat) : ratNeg a = -a := by
  rw [ratNeg, ← Rat.neg_divInt, Rat.num_divInt_den]

theorem ratMul_eq (a b : Rat) : ratMul a b = a * b := by
  conv_rhs => rw [← Rat.num_divInt_den a, ← Rat.num_divInt_den b]
  rw [Rat.divInt_mul_divInt _ _ (Int.natCast_ne_zero.mpr a.den_nz)
    (Int.natCast_ne_zero.mpr b.den_nz)]
  rfl

theorem ratDiv_eq (a b : Rat) : ratDiv a b = a / b := (Rat.div_def' a b).symm

theorem obind_const_none {α β : Type} (o : Option α) :
    (o.bind fun _ => (none : Option β)) = none := by
  cases o <;> rfl

theorem floatField_of_short {parts : List String} (h : parts.length < 8) :
    floatField parts 7 = none := by
  have h7 : parts[7]? = none := List.getElem?_eq_none (by omega)
  simp [floatField, h7]

theorem parseSummaryFields_short {s : String}
    (h : (pySplitChar ',' s).length < 8) : parseSummaryFields s = none := by
  have h7 := floatField_of_short h
  simp [parseSummaryFields, h7, obind_const_none]

/-!
## Claims
-/

/-- C3: for every requested throughput `t` and batch size `B`, a
non-positive `t` is translated to exactly `-B` in the REST producer
command argument and to exactly `-100` in the REST consumer command
argument, while a positive `t` is passed through unchanged by both. -/
theorem C3_negative_throughput_translation (t B : Int) :
    (t ≤ 0 → restProducerThroughputArg t B = -B ∧ restConsumerThroughputArg t = -100)
    ∧ (0 < t → restProducerThroughputArg t B = t ∧ restConsumerThroughputArg t = t) := by
  constructor
  · intro h
    have hnp : ¬t > 0 := by omega
    simp [restProducerThroughputArg, restConsumerThroughputArg, hnp]
  · intro h
    simp [restProducerThroughputArg, restConsumerThroughputArg, h]

theorem C3_negative_throughput_translation_witness :
    (restProducerThroughputArg (-5) 7 = -7 ∧ restConsumerThroughputArg (-5) = -100)
    ∧ (restProducerThroughputArg 9 7 = 9 ∧ restConsumerThroughputArg 9 = 9) :=
  ⟨(C3_negative_throughput_translation (-5) 7).1 (by decide),
   (C3_negative_throughput_translation 9 7).2 (by decide)⟩

/-- C4: parsing the synthetic summary line with the shared parser yields
the nine claimed field values together with the derived fields
`total_mb = mbps * records / records_per_sec = 5`, `rate_mbps = mbps` and
`rate_mps = records_per_sec`. -/
theorem C4_parse_performance_output_roundtrip :
    parse_performance_output "1000 records, 500.0 records/sec (2.5 MB/sec), 10.0 ms avg, 50.0 ms max, 8.0 ms 50th, 20.0 ms 95th, 30.0 ms 99th, 40.0 ms 99.9th"
      = some { records := 1000, records_per_sec := 500, mbps := mkRat 5 2,
               latency_avg_ms := 10, latency_max_ms := 50, latency_50th_ms := 8,
               latency_95th_ms := 20, latency_99th_ms := 30, latency_999th_ms := 40,
               total_mb := 5, rate_mbps := mkRat 5 2, rate_mps := 500 } := by
  decide

/-- C7: a line with fewer than 8 comma-separated fields makes both the
shared parser and the producer's inline `parse_stats` fail; no
partially-populated record can be produced (`none` is the only non-record
outcome of the `Option`-valued parser). -/
theorem C7_short_line_reports_failure (s : String)
    (h : (pySplitChar ',' s).length < 8) :
    parse_performance_output s = none ∧ parse_stats s = none := by
  have hp := parseSummaryFields_short h
  exact ⟨by simp [parse_performance_output, hp], hp⟩

theorem C7_short_line_reports_failure_witness :
    (pySplitChar ',' "three, fields, only").length < 8
    ∧ parse_performance_output "three, fields, only" = none
    ∧ parse_stats "three, fields, only" = none :=
  ⟨by decide,
   (C7_short_line_reports_failure "three, fields, only" (by decide)).1,
   (C7_short_line_reports_failure "three, fields, only" (by decide)).2⟩

/-- C10: the consumer-style (non-REST) command depends only on the topic
and record count (plus the external zookeeper string and settings): two
configurations differing only in `throughput` and/or `threads` build the
identical command. -/
theorem C10_consumer_cmd_ignores_throughput_threads
    (a1 a2 : ConsumerArgs) (zk_connect : String)
    (settings : List (String × String))
    (ht : a1.topic = a2.topic) (hn : a1.num_records = a2.num_records) :
    consumerPerfCmd a1 zk_connect settings = consumerPerfCmd a2 zk_connect settings := by
  simp [consumerPerfCmd, ht, hn]

theorem C10_consumer_cmd_ignores_throughput_threads_witness :
    consumerPerfCmd ⟨"test-topic", 50000, 10000, 1⟩ "zk1:2181" [("a", "b")]
      = consumerPerfCmd ⟨"test-topic", 50000, -1, 8⟩ "zk1:2181" [("a", "b")] :=
  C10_consumer_cmd_ignores_throughput_threads _ _ _ _ rfl rfl

theorem producerFold_stats_congr (b : Bool) (lines : List String) :
    ∀ st st' : ProducerLoopState, st.stats = st'.stats →
      (lines.foldl (producerStep b) st).stats
        = (lines.foldl (producerStep b) st').stats := by
  induction lines with
  | nil => intro st st' h; simpa using h
  | cons x xs ih =>
    intro st st' h
    simp only [List.foldl_cons]
    exact ih _ _ (by simp [producerStep, h])

theorem foldl_producerStep_last (b : Bool) (lines : List String) :
    ∀ st : ProducerLoopState,
      (lines.foldl (producerStep b) st).last
        = lines.foldl (fun _ l => some l) st.last := by
  induction lines with
  | nil => intro st; rfl
  | cons x xs ih =>
    intro st
    simp only [List.foldl_cons, ih, producerStep]

theorem producerLoop_last (b : Bool) (lines : List String) :
    (producerLoop b lines).last = lastLine lines :=
  foldl_producerStep_last b lines ⟨[], none⟩

/-- C8: in the producer-style worker with intermediate sampling enabled,
a line that fails to parse contributes no sample (the stats slot after the
run is the same as if the line were absent, and the fold keeps processing
the following lines), while the failing line still becomes the running
last-line candidate. -/
theorem C8_intermediate_parse_failure_swallowed (pre post : List String)
    (bad : String) (hbad : parse_stats bad = none) :
    (producerLoop true (pre ++ bad :: post)).stats
      = (producerLoop true (pre ++ post)).stats
    ∧ (producerLoop true (pre ++ [bad])).last = some bad := by
  constructor
  · unfold producerLoop
    rw [List.foldl_append, List.foldl_append, List.foldl_cons]
    exact producerFold_stats_congr true post _ _ (by simp [producerStep, hbad])
  · unfold producerLoop
    rw [List.foldl_append, List.foldl_cons]
    rfl

theorem C8_intermediate_parse_failure_swallowed_witness :
    parse_stats "[INFO] starting benchmark" = none
    ∧ (producerLoop true (["l1"] ++ "[INFO] starting benchmark" :: ["l2"])).stats
        = (producerLoop true (["l1"] ++ ["l2"])).stats
    ∧ (producerLoop true (["l1"] ++ ["[INFO] starting benchmark"])).last
        = some "[INFO] starting benchmark" :=
  ⟨by decide,
   (C8_intermediate_parse_failure_swallowed ["l1"] ["l2"] _ (by decide)).1,
   (C8_intermediate_parse_failure_swallowed ["l1"] ["l2"] _ (by decide)).2⟩

/-- C2 counterexample: in the REST producer variant, a last line that
fails to parse makes the worker propagate an exception (`Except.error`)
instead of reporting an error for the slot — refuting the claim's
"for every benchmark variant". -/
theorem C2_counterexample :
    parse_stats "% Benchmark starting" = none
    ∧ restProducerWorkerResult ["% Benchmark starting"] = .error ()
    ∧ (restProducerWorkerResult ["% Benchmark starting"]).isOk = false := by
  decide

/-- C2 amended: the producer-style worker's final parse is wrapped in a
catch-all, so it never propagates and leaves the slot unset on a parse
failure of the last retained line; the REST producer worker, by contrast,
propagates the failure as an exception. -/
theorem C2_final_parse_failure_handling (b : Bool) (lines : List String)
    (l : String) (hl : lastLine lines = some l)
    (hfail : parse_stats l = none) :
    producerWorkerResultE b lines = .ok none
    ∧ (∀ ls : List String, ∃ v, producerWorkerResultE b ls = .ok v)
    ∧ restProducerWorkerResult lines = .error () := by
  refine ⟨?_, ?_, ?_⟩
  · unfold producerWorkerResultE
    rw [producerLoop_last, hl]
    simp [hfail]
  · intro ls
    cases h : ((producerLoop b ls).last).bind parse_stats with
    | none => exact ⟨none, by unfold producerWorkerResultE; rw [h]⟩
    | some r => exact ⟨some r, by unfold producerWorkerResultE; rw [h]⟩
  · unfold restProducerWorkerResult
    rw [hl]
    simp [show parseSummaryFields l = none from hfail]

theorem C2_final_parse_failure_handling_witness :
    producerWorkerResultE false ["garbage line"] = .ok none
    ∧ restProducerWorkerResult ["garbage line"] = .error () :=
  ⟨(C2_final_parse_failure_handling false ["garbage line"] "garbage line"
      (by decide) (by decide)).1,
   (C2_final_parse_failure_handling false ["garbage line"] "garbage line"
      (by decide) (by decide)).2.2⟩

/-- C9 counterexample: on the claim's exact input lines, the code raises —
`float("10.0ms")` is a `ValueError`, because `[:-1]` strips only the
trailing comma, not the `ms` suffix — so extraction yields no record at
all, let alone the claimed one. -/
theorem C9_counterexample :
    e2eRun ["Avg latency: 12.3 ms",
            "Percentiles: 50th = 10.0ms, 99th = 30.0ms, 99.9th = 40.0"]
      = .error ()
    ∧ e2eRun ["Avg latency: 12.3 ms",
              "Percentiles: 50th = 10.0ms, 99th = 30.0ms, 99.9th = 40.0"]
        ≠ .ok { latency_avg_ms := some (mkRat 123 10), latency_50th_ms := some 10,
                latency_99th_ms := some 30, latency_999th_ms := some 40 }
    ∧ pyFloat? "10.0ms" = none := by
  decide

/-- C9 amended: with the percentile values written without the `ms`
suffix (so that dropping the final character strips exactly the comma),
extraction yields `latency_avg_ms = 12.3`, `latency_50th_ms = 10.0`,
`latency_99th_ms = 30.0`, `latency_999th_ms = 40.0`. -/
theorem C9_e2e_extraction :
    e2eRun ["Avg latency: 12.3 ms",
            "Percentiles: 50th = 10.0, 99th = 30.0, 99.9th = 40.0"]
      = .ok { latency_avg_ms := some (mkRat 123 10), latency_50th_ms := some 10,
              latency_99th_ms := some 30, latency_999th_ms := some 40 } := by
  decide

/-- C5 counterexample: calling `wait()` a second time after it has
returned raises `TypeError` (iterating the cleared `None` handle list),
not an `AssertionError` — so "each trigger a fatal assertion" is false
for the double-`wait` half of the claim. -/
theorem C5_counterexample :
    (runWait false (fun _ => []) (startRun 1)).bind (runWait false (fun _ => []))
      = .error .typeError
    ∧ PyErr.typeError ≠ PyErr.assertionError := by
  decide

/-- C5 amended: `stop()` before `wait()` (the handle list still present)
is a fatal `AssertionError`; a second `wait()` after `wait()` has returned
(the handle list cleared to `None`) is a fatal `TypeError`, not an
assertion.  Both are uncaught caller errors. -/
theorem C5_precondition_violations (s : RunState) (b : Bool)
    (outputs : Nat → List String) :
    (∀ ws, s.worker_threads = some ws → runStop s = .error .assertionError)
    ∧ (s.worker_threads = none → runWait b outputs s = .error .typeError) := by
  constructor
  · intro ws h
    simp [runStop, h]
  · intro h
    simp [runWait, h]

theorem C5_precondition_violations_witness :
    runStop (startRun 1) = .error .assertionError
    ∧ runWait false (fun _ => [])
        { numNodes := 1, worker_threads := none, results := [none] }
      = .error .typeError :=
  ⟨(C5_precondition_violations (startRun 1) false (fun _ => [])).1
     (List.range' 1 1) rfl,
   (C5_precondition_violations
     { numNodes := 1, worker_threads := none, results := [none] }
     false (fun _ => [])).2 rfl⟩

/-- C6: a worker body never releases its node (its effect frees nothing);
nodes are released exclusively by `stop()`, which requires that `wait()`
has already cleared the handle list and then frees the nodes `1..N` in
node-list order, exactly once each. -/
theorem C6_free_discipline :
    (∀ b idx lines, (producerWorkerEffect b idx lines).freed = [])
    ∧ (∀ s evs, runStop s = .ok evs →
        s.worker_threads = none
        ∧ evs = List.range' 1 s.numNodes
        ∧ ∀ n, 1 ≤ n → n ≤ s.numNodes → evs.count n = 1) := by
  constructor
  · intro b idx lines
    rfl
  · intro s evs h
    cases hw : s.worker_threads with
    | some ws => rw [runStop, hw] at h; cases h
    | none =>
      rw [runStop, hw] at h
      cases h
      refine ⟨rfl, rfl, fun n hn1 hnN => ?_⟩
      exact List.count_eq_one_of_mem (List.nodup_range' 1 s.numNodes)
        (List.mem_range'_1.mpr ⟨hn1, by omega⟩)

theorem C6_free_discipline_witness :
    (producerWorkerEffect false 1 ["some output"]).freed = []
    ∧ ([1, 2] : List Nat) = List.range' 1 2
    ∧ (([1, 2] : List Nat).count 2 = 1) :=
  ⟨C6_free_discipline.1 false 1 ["some output"],
   (C6_free_discipline.2 (RunState.mk 2 none [none, none]) [1, 2] (by decide)).2.1,
   (C6_free_discipline.2 (RunState.mk 2 none [none, none]) [1, 2]
     (by decide)).2.2 2 (by decide) (by decide)⟩

theorem applyEffect_producer (res : List (Option PerfStats)) (b : Bool)
    (idx : Nat) (lines : List String) :
    applyEffect res (producerWorkerEffect b idx lines)
      = match producerFinal b lines with
        | some r => res.set (idx - 1) (some r)
        | none => res := by
  cases h : producerFinal b lines <;> simp [applyEffect, producerWorkerEffect, h]

theorem foldWorkers_length (b : Bool) (outputs : Nat → List String) :
    ∀ (ws : List Nat) (res : List (Option PerfStats)),
      (ws.foldl
        (fun res idx => applyEffect res (producerWorkerEffect b idx (outputs idx)))
        res).length = res.length := by
  intro ws
  induction ws with
  | nil => intro res; rfl
  | cons w t ih =>
    intro res
    rw [List.foldl_cons, ih, applyEffect_producer]
    cases producerFinal b (outputs w) <;> simp

theorem applyEffect_producer_getElem (res : List (Option PerfStats)) (b : Bool)
    (k : Nat) (lines : List String) (i : Nat) (hk : 1 ≤ k) (hi : i < res.length) :
    (applyEffect res (producerWorkerEffect b k lines))[i]?
      = if k = i + 1 then
          (match producerFinal b lines with
           | some r => some (some r)
           | none => res[i]?)
        else res[i]? := by
  rw [applyEffect_producer]
  cases h : producerFinal b lines with
  | none => simp
  | some r =>
    rw [List.getElem?_set]
    by_cases hki : k = i + 1
    · have hk1 : k - 1 = i := by omega
      simp [hki, hk1, hi]
    · have hk1 : k - 1 ≠ i := by omega
      simp [hki, hk1]

theorem foldWorkers_getElem (b : Bool) (outputs : Nat → List String) :
    ∀ (n k : Nat) (res : List (Option PerfStats)) (i : Nat), 1 ≤ k → i < res.length →
      ((List.range' k n).foldl
          (fun res idx => applyEffect res (producerWorkerEffect b idx (outputs idx)))
          res)[i]?
        = if k ≤ i + 1 ∧ i + 1 < k + n then
            (match producerFinal b (outputs (i + 1)) with
             | some r => some (some r)
             | none => res[i]?)
          else res[i]? := by
  intro n
  induction n with
  | zero =>
    intro k res i hk hi
    rw [show List.range' k 0 = [] from rfl, List.foldl_nil,
      if_neg (by omega : ¬(k ≤ i + 1 ∧ i + 1 < k + 0))]
  | succ m ih =>
    intro k res i hk hi
    rw [List.range'_succ, List.foldl_cons]
    have hlen : (applyEffect res (producerWorkerEffect b k (outputs k))).length
        = res.length := by
      rw [applyEffect_producer]
      cases producerFinal b (outputs k) <;> simp
    rw [ih (k + 1) _ i (by omega) (by rw [hlen]; exact hi)]
    rw [applyEffect_producer_getElem res b k (outputs k) i hk hi]
    by_cases hki : k = i + 1
    · subst hki
      have c1 : ¬(i + 1 + 1 ≤ i + 1 ∧ i + 1 < i + 1 + 1 + m) := by omega
      have c2 : i + 1 ≤ i + 1 ∧ i + 1 < i + 1 + (m + 1) := by omega
      rw [if_neg c1, if_pos c2, if_pos rfl]
    · simp only [if_neg hki]
      have hiff : (k + 1 ≤ i + 1 ∧ i + 1 < k + 1 + m)
          ↔ (k ≤ i + 1 ∧ i + 1 < k + (m + 1)) := by omega
      by_cases hc : k + 1 ≤ i + 1 ∧ i + 1 < k + 1 + m
      · rw [if_pos hc, if_pos (hiff.mp hc)]
      · rw [if_neg hc, if_neg (fun h => hc (hiff.mpr h))]

/-- C1: after `start()` has spawned workers `1..N` and `wait()` has
returned, the run exposes exactly `N` result slots; slot `i-1` holds
exactly what the worker bound to node `i` computed from node `i`'s own
output; and a worker's effect writes at most once, only to its own slot
`idx-1`, so no other worker can touch slot `i-1`. -/
theorem C1_result_slot_alignment (N : Nat) (_hN : 1 ≤ N) (b : Bool)
    (outputs : Nat → List String) (s' : RunState)
    (hw : runWait b outputs (startRun N) = .ok s') :
    s'.results.length = N
    ∧ (∀ i, 1 ≤ i → i ≤ N → s'.results[i - 1]? = some (producerFinal b (outputs i)))
    ∧ (∀ idx lines e, e ∈ (producerWorkerEffect b idx lines).writes → e.1 = idx - 1)
    ∧ (∀ idx lines, (producerWorkerEffect b idx lines).writes.length ≤ 1) := by
  simp only [runWait, startRun, Except.ok.injEq] at hw
  subst hw
  refine ⟨?_, ?_, ?_, ?_⟩
  · rw [foldWorkers_length, List.length_replicate]
  · intro i h1 hN'
    have hi : i - 1 < (List.replicate N (none : Option PerfStats)).length := by
      rw [List.length_replicate]; omega
    show ((List.range' 1 N).foldl _ _)[i - 1]? = _
    rw [foldWorkers_getElem b outputs N 1 _ (i - 1) (by omega) hi]
    have hcond : 1 ≤ (i - 1) + 1 ∧ (i - 1) + 1 < 1 + N := by omega
    rw [if_pos hcond]
    have hidx : i - 1 + 1 = i := by omega
    rw [hidx]
    cases producerFinal b (outputs i) with
    | none => simp [List.getElem?_replicate]; omega
    | some r => rfl
  · intro idx lines e he
    cases h : producerFinal b lines with
    | none => simp [producerWorkerEffect, h] at he
    | some r =>
      simp [producerWorkerEffect, h] at he
      rw [he]
  · intro idx lines
    cases h : producerFinal b lines <;> simp [producerWorkerEffect, h]

theorem C1_result_slot_alignment_witness :
    (RunState.mk 2 none [none, none]).results.length = 2
    ∧ (RunState.mk 2 none [none, none]).results[0]? = some (producerFinal false []) :=
  ⟨(C1_result_slot_alignment 2 (by decide) false (fun _ => [])
      (RunState.mk 2 none [none, none]) (by decide)).1,
   by
    have h := (C1_result_slot_alignment 2 (by decide) false (fun _ => [])
      (RunState.mk 2 none [none, none]) (by decide)).2.1 1 (by decide) (by decide)
    simpa using h⟩
